import Mathlib

/-!
Verification of the request-routing and input-reconciliation core of the
trpc-openapi adapter layer.

The development shallowly embeds the TypeScript sources:
  * src/adapters/node-http/core.ts        (dispatch pipeline, error envelope)
  * src/adapters/node-http/procedures.ts  (procedure cache / lookup)
  * src/adapters/aws-lambda.ts            (gateway event normalizer)
  * src/types.ts                          (method and option types)
  * the error-code → HTTP-status table and getErrorFromUnknown helpers

JavaScript values flowing through the pipeline are modelled by `JsonValue`;
JavaScript objects are association lists in insertion order, where a later
binding for a key shadows an earlier one (exactly the observable behaviour of
object spread `{...a, ...b}`), and `jsLookup` reads a key the way JavaScript
property access does.  JSON numbers are modelled as integers, which covers
every input considered here.  External collaborators (the RPC execution
engine, the context factory, the `responseMeta` and `getErrorShape` hooks)
are parameters of the embedded pipeline.
-/

/-- Model of a JavaScript/JSON value. -/
inductive JsonValue where
  | null : JsonValue
  | bool : Bool → JsonValue
  | num : Int → JsonValue
  | str : String → JsonValue
  | arr : List JsonValue → JsonValue
  | obj : List (String × JsonValue) → JsonValue

/-- Property read on a JavaScript object modelled as an insertion-ordered
association list: the LAST binding of a key is its value (later writes
shadow earlier ones). -/
def jsLookup (fields : List (String × JsonValue)) (key : String) : Option JsonValue :=
  (fields.reverse.find? (fun p => p.1 == key)).map Prod.snd

/-- Error codes of the RPC framework, as enumerated by the repository's own
`TRPC_ERROR_CODE_HTTP_STATUS` table. -/
inductive TRPCErrorCode where
  | PARSE_ERROR
  | BAD_REQUEST
  | NOT_FOUND
  | INTERNAL_SERVER_ERROR
  | UNAUTHORIZED
  | FORBIDDEN
  | TIMEOUT
  | CONFLICT
  | CLIENT_CLOSED_REQUEST
  | NOT_IMPLEMENTED
  | BAD_GATEWAY
  | SERVICE_UNAVAILABLE
  | GATEWAY_TIMEOUT
  | UNSUPPORTED_MEDIA_TYPE
  | METHOD_NOT_SUPPORTED
  | PRECONDITION_FAILED
  | PAYLOAD_TOO_LARGE
  | UNPROCESSABLE_CONTENT
  | TOO_MANY_REQUESTS
deriving DecidableEq

/-- The fixed error-code → HTTP-status table (`TRPC_ERROR_CODE_HTTP_STATUS`).
`getHTTPStatusCodeFromError` used by the dispatch pipeline resolves an error's
status through exactly this mapping. -/
def TRPC_ERROR_CODE_HTTP_STATUS : TRPCErrorCode → Nat
  | .PARSE_ERROR => 400
  | .BAD_REQUEST => 400
  | .NOT_FOUND => 404
  | .INTERNAL_SERVER_ERROR => 500
  | .UNAUTHORIZED => 401
  | .FORBIDDEN => 403
  | .TIMEOUT => 408
  | .CONFLICT => 409
  | .CLIENT_CLOSED_REQUEST => 499
  | .NOT_IMPLEMENTED => 501
  | .BAD_GATEWAY => 502
  | .SERVICE_UNAVAILABLE => 503
  | .GATEWAY_TIMEOUT => 504
  | .UNSUPPORTED_MEDIA_TYPE => 415
  | .METHOD_NOT_SUPPORTED => 405
  | .PRECONDITION_FAILED => 412
  | .PAYLOAD_TOO_LARGE => 413
  | .UNPROCESSABLE_CONTENT => 422
  | .TOO_MANY_REQUESTS => 429

/-- The wire name of an error code (the `code` field of the error envelope). -/
def codeName : TRPCErrorCode → String
  | .PARSE_ERROR => "PARSE_ERROR"
  | .BAD_REQUEST => "BAD_REQUEST"
  | .NOT_FOUND => "NOT_FOUND"
  | .INTERNAL_SERVER_ERROR => "INTERNAL_SERVER_ERROR"
  | .UNAUTHORIZED => "UNAUTHORIZED"
  | .FORBIDDEN => "FORBIDDEN"
  | .TIMEOUT => "TIMEOUT"
  | .CONFLICT => "CONFLICT"
  | .CLIENT_CLOSED_REQUEST => "CLIENT_CLOSED_REQUEST"
  | .NOT_IMPLEMENTED => "NOT_IMPLEMENTED"
  | .BAD_GATEWAY => "BAD_GATEWAY"
  | .SERVICE_UNAVAILABLE => "SERVICE_UNAVAILABLE"
  | .GATEWAY_TIMEOUT => "GATEWAY_TIMEOUT"
  | .UNSUPPORTED_MEDIA_TYPE => "UNSUPPORTED_MEDIA_TYPE"
  | .METHOD_NOT_SUPPORTED => "METHOD_NOT_SUPPORTED"
  | .PRECONDITION_FAILED => "PRECONDITION_FAILED"
  | .PAYLOAD_TOO_LARGE => "PAYLOAD_TOO_LARGE"
  | .UNPROCESSABLE_CONTENT => "UNPROCESSABLE_CONTENT"
  | .TOO_MANY_REQUESTS => "TOO_MANY_REQUESTS"

/-- Model of a `TRPCError`: its code, its message, and — when its `cause` is a
schema-validator (`ZodError`) failure — that validator's structured issue
list. `causeZodIssues = none` models a cause that is absent or not a
`ZodError`. -/
structure TRPCError where
  code : TRPCErrorCode
  message : String
  causeZodIssues : Option (List JsonValue)

/-- Declared input shape of a procedure after unwrapping, as the dispatch code
distinguishes it: void-like, array, or anything else (the object/spread
branch). -/
inductive InputShape where
  | voidLike
  | arrayLike
  | objectLike
deriving DecidableEq

/-- Fields contributed by spreading a JavaScript value into an object literal
(`{...v}`): an object contributes its fields, an array its index-keyed
elements, a string its index-keyed characters, anything else nothing. -/
def spreadFields : Option JsonValue → List (String × JsonValue)
  | some (JsonValue.obj fields) => fields
  | some (JsonValue.arr xs) => xs.enum.map (fun p => (toString p.1, p.2))
  | some (JsonValue.str s) =>
      s.data.enum.map (fun p => (toString p.1, JsonValue.str (String.mk [p.2])))
  | _ => []

/-- Path parameters (string captures) viewed as object fields. -/
def pathFields (pathInput : List (String × String)) : List (String × JsonValue) :=
  pathInput.map (fun p => (p.1, JsonValue.str p.2))

/-- Input reconciliation of the dispatch pipeline
(src/adapters/node-http/core.ts lines 130–148): void-like schemas get no
input; array schemas require the decoded body/query to already be an array
and take it unchanged; any other schema receives the spread
`{...bodyOrQuery, ...pathInput}`. -/
def reconcileInput (shape : InputShape) (bodyOrQuery : Option JsonValue)
    (pathInput : List (String × String)) : Except TRPCError (Option JsonValue) :=
  match shape with
  | .voidLike => Except.ok none
  | .arrayLike =>
    match bodyOrQuery with
    | some (JsonValue.arr xs) => Except.ok (some (JsonValue.arr xs))
    | _ => Except.error ⟨.BAD_REQUEST, "Expected array in request body", none⟩
  | .objectLike =>
    Except.ok (some (JsonValue.obj (spreadFields bodyOrQuery ++ pathFields pathInput)))

/-- Normalized response produced by the node-http handler: a status code and
an optional JSON body (`none` models `res.end(undefined)`, an empty body). -/
structure Response where
  statusCode : Nat
  body : Option JsonValue

/-- Whether an error is an input-validation failure: code `BAD_REQUEST` with a
`ZodError` cause (src/adapters/node-http/core.ts lines 237–240). -/
def isInputValidationError (e : TRPCError) : Bool :=
  e.code == TRPCErrorCode.BAD_REQUEST && e.causeZodIssues.isSome

/-- The error branch of the node-http handler
(src/adapters/node-http/core.ts lines 203–252).  `metaStatus` is the optional
status override supplied by the `responseMeta` hook; `errorShapeMessage` is
the message of the router's external `getErrorShape` (for a default router
configuration it is the error's own message; `none` models an absent shape,
falling back to `error.message`).  An input-validation error is surfaced with
the fixed message and the validator's issue list; `issues` is omitted
otherwise (an `undefined` property disappears under JSON serialization). -/
def errorResponse (metaStatus : Option Nat) (errorShapeMessage : Option String)
    (e : TRPCError) : Response :=
  { statusCode := metaStatus.getD (TRPC_ERROR_CODE_HTTP_STATUS e.code)
    body := some (JsonValue.obj
      ([("message", JsonValue.str
          (if isInputValidationError e then "Input validation failed"
           else errorShapeMessage.getD e.message)),
        ("code", JsonValue.str (codeName e.code))] ++
       (if isInputValidationError e then
          [("issues", JsonValue.arr (e.causeZodIssues.getD []))]
        else []))) }

/-- Splits a character list into its non-empty `/`-separated segments,
accumulating the current segment in reverse. -/
def splitSegsAux : List Char → List Char → List String
  | [], acc => if acc.isEmpty then [] else [String.mk acc.reverse]
  | c :: cs, acc =>
    if c = '/' then
      if acc.isEmpty then splitSegsAux cs []
      else String.mk acc.reverse :: splitSegsAux cs []
    else splitSegsAux cs (c :: acc)

/-- Modelled from the spec: path normalization (`normalizePath` in
src/utils/path.ts, not present under src/).  Per §4.1 a leading or trailing
slash is insignificant: `/hello`, `hello` and `hello/` are treated
identically, so a path is compared through its list of non-empty segments. -/
def splitPath (p : String) : List String :=
  splitSegsAux p.data []

/-- One compiled segment of a path template: a literal or a named capture. -/
inductive Segment where
  | lit (s : String)
  | param (s : String)
deriving DecidableEq

/-- A template segment starting with `:` denotes a named capture; any other
segment is a literal. -/
def compileSeg (s : String) : Segment :=
  match s.data with
  | ':' :: rest => Segment.param (String.mk rest)
  | _ => Segment.lit s

/-- Modelled from the spec: template compilation (`getPathRegExp` in
src/utils/path.ts, not present under src/), per §4.1. -/
def compileTemplate (template : String) : List Segment :=
  (splitPath template).map compileSeg

/-- Modelled from the spec: pattern matching (§4.1): a pattern matches a path
iff segment counts agree and every literal segment matches exactly; named
segments capture the corresponding path segment verbatim. -/
def matchPattern : List Segment → List String → Option (List (String × String))
  | [], [] => some []
  | Segment.lit s :: ps, c :: cs =>
      if s = c then matchPattern ps cs else none
  | Segment.param n :: ps, c :: cs =>
      (matchPattern ps cs).map (fun captured => (n, c) :: captured)
  | _, _ => none

/-- The HTTP methods a procedure can be registered under (src/types.ts
line 19): `HEAD` is deliberately absent. -/
inductive OpenApiMethod where
  | GET
  | POST
  | PATCH
  | PUT
  | DELETE
deriving DecidableEq

/-- Wire name of a registrable method. -/
def methodName : OpenApiMethod → String
  | .GET => "GET"
  | .POST => "POST"
  | .PATCH => "PATCH"
  | .PUT => "PUT"
  | .DELETE => "DELETE"

/-- Procedure kinds of the RPC framework (`procedure._def.type`). -/
inductive ProcedureType where
  | query
  | mutation
  | subscription
deriving DecidableEq

/-- Openapi metadata carried by a procedure (the fields the cache consults). -/
structure OpenApiMetaInfo where
  enabled : Option Bool
  method : OpenApiMethod
  path : String

/-- One procedure of the router tree as the cache walker sees it: its
dot-segmented name, its kind, its (unwrapped) declared input shape, and its
optional openapi metadata. -/
structure Registered where
  queryPath : String
  procType : ProcedureType
  inputShape : InputShape
  openapi : Option OpenApiMetaInfo

/-- Descriptor stored in the procedure cache
(src/adapters/node-http/procedures.ts lines 10–15). -/
structure CacheEntry where
  type : ProcedureType
  path : String
  inputShape : InputShape

/-- The per-method pattern list of the procedure cache
(`createProcedureCache`, src/adapters/node-http/procedures.ts lines 18–32,
with `forEachOpenApiProcedure`): a procedure is registered iff it carries
openapi metadata whose `enabled` is not `false` and its kind is `query` or
`mutation`; compiled patterns are kept in registration order under the
declared method. -/
def registeredUnder (regs : List Registered) (m : String) :
    List (List Segment × CacheEntry) :=
  regs.filterMap (fun r =>
    match r.openapi with
    | none => none
    | some o =>
      if o.enabled ≠ some false ∧
          (r.procType = ProcedureType.query ∨ r.procType = ProcedureType.mutation) ∧
          methodName o.method = m
      then some (compileTemplate o.path, ⟨r.procType, r.queryPath, r.inputShape⟩)
      else none)

/-- Procedure lookup (src/adapters/node-http/procedures.ts lines 34–49): a
linear scan over the patterns registered for the method, returning the first
that matches together with its descriptor and the extracted path
parameters. -/
def getProcedure (regs : List Registered) (m : String) (segs : List String) :
    Option (CacheEntry × List (String × String)) :=
  match (registeredUnder regs m).find? (fun e => (matchPattern e.1 segs).isSome) with
  | none => none
  | some e => some (e.2, (matchPattern e.1 segs).getD [])

/-- Modelled from the spec: `acceptsRequestBody` (src/utils/method.ts, not
present under src/).  Per §4.5, GET and HEAD do not carry a request body;
POST/PUT/PATCH/DELETE do. -/
def acceptsRequestBody (m : String) : Bool :=
  !(m == "GET" || m == "HEAD")

/-- The node-http dispatch pipeline (src/adapters/node-http/core.ts lines
83–253) for one request.  External collaborators are parameters: `invoke`
models `createCaller` plus the procedure call (it may fail, e.g. with a
validation error), `metaStatus` the optional `responseMeta` status override,
`errorShapeMessage` the external `getErrorShape` message, `hasNext` whether a
next-middleware callback was supplied (`none` result = delegated to it), and
`readBody` the result of reading/decoding the request body.  The schema
coercion pass of lines 151–168 mutates only external validator state and has
no effect on the values modelled here. -/
def nodeHttpHandler (regs : List Registered)
    (invoke : String → Option JsonValue → Except TRPCError JsonValue)
    (metaStatus : Option Nat) (errorShapeMessage : Option String)
    (hasNext : Bool) (method : String) (segs : List String)
    (query : List (String × String))
    (readBody : Except TRPCError (Option JsonValue)) : Option Response :=
  match getProcedure regs method segs with
  | none =>
    if hasNext then none
    else if method = "HEAD" then some ⟨204, none⟩
    else some (errorResponse metaStatus errorShapeMessage ⟨.NOT_FOUND, "Not found", none⟩)
  | some (entry, pathInput) =>
    let outcome : Except TRPCError JsonValue := do
      let input ←
        if entry.inputShape = InputShape.voidLike then pure none
        else do
          let bodyOrQuery ←
            if acceptsRequestBody method then readBody
            else pure (some (JsonValue.obj (query.map (fun p => (p.1, JsonValue.str p.2)))))
          reconcileInput entry.inputShape bodyOrQuery pathInput
      invoke entry.path input
    match outcome with
    | Except.ok data => some ⟨metaStatus.getD 200, some data⟩
    | Except.error e => some (errorResponse metaStatus errorShapeMessage e)

/-- Whitespace skipping of the JSON reader. -/
def skipWs : List Char → List Char
  | [] => []
  | c :: cs =>
    if c = ' ' ∨ c = '\n' ∨ c = '\t' ∨ c = '\r' then skipWs cs else c :: cs

/-- Reads the characters of a JSON string literal up to its closing quote,
handling the common escapes. -/
def parseStringChars : Nat → List Char → Option (List Char × List Char)
  | 0, _ => none
  | _, [] => none
  | fuel + 1, c :: cs =>
    if c = '"' then some ([], cs)
    else if c = '\\' then
      match cs with
      | [] => none
      | e :: cs2 =>
        let dec : Option Char :=
          if e = '"' then some '"'
          else if e = '\\' then some '\\'
          else if e = '/' then some '/'
          else if e = 'n' then some '\n'
          else if e = 't' then some '\t'
          else if e = 'r' then some '\r'
          else none
        match dec with
        | none => none
        | some d => (parseStringChars fuel cs2).map (fun p => (d :: p.1, p.2))
    else (parseStringChars fuel cs).map (fun p => (c :: p.1, p.2))

/-- Leading decimal digits of a character list, and the remainder. -/
def takeDigits : List Char → (List Char × List Char)
  | [] => ([], [])
  | c :: cs =>
    if c.isDigit then
      let p := takeDigits cs
      (c :: p.1, p.2)
    else ([], c :: cs)

/-- Numeric value of a digit list. -/
def digitsVal (ds : List Char) : Nat :=
  ds.foldl (fun acc c => acc * 10 + (c.toNat - 48)) 0

/-- Reads a JSON number.  The model restricts numbers to integers (a fraction
or exponent is not accepted), which covers every input considered in this
development. -/
def parseNumber (cs : List Char) : Option (JsonValue × List Char) :=
  let signed : Bool × List Char :=
    match cs with
    | '-' :: rest => (true, rest)
    | _ => (false, cs)
  match takeDigits signed.2 with
  | ([], _) => none
  | (ds, rest) =>
    let n : Int := digitsVal ds
    let v := JsonValue.num (if signed.1 then -n else n)
    match rest with
    | [] => some (v, [])
    | c :: _ =>
      if c = '.' ∨ c = 'e' ∨ c = 'E' then none else some (v, rest)

mutual

/-- Recursive-descent JSON reader (model of `JSON.parse`); `fuel` bounds the
recursion depth. -/
def parseValue : Nat → List Char → Option (JsonValue × List Char)
  | 0, _ => none
  | fuel + 1, cs =>
    match skipWs cs with
    | [] => none
    | c :: rest =>
      if c = 'n' then
        match rest with
        | 'u' :: 'l' :: 'l' :: rest2 => some (JsonValue.null, rest2)
        | _ => none
      else if c = 't' then
        match rest with
        | 'r' :: 'u' :: 'e' :: rest2 => some (JsonValue.bool true, rest2)
        | _ => none
      else if c = 'f' then
        match rest with
        | 'a' :: 'l' :: 's' :: 'e' :: rest2 => some (JsonValue.bool false, rest2)
        | _ => none
      else if c = '"' then
        (parseStringChars (rest.length + 1) rest).map
          (fun p => (JsonValue.str (String.mk p.1), p.2))
      else if c = '[' then
        match skipWs rest with
        | ']' :: rest2 => some (JsonValue.arr [], rest2)
        | rest2 => (parseElems fuel rest2).map (fun p => (JsonValue.arr p.1, p.2))
      else if c = '\x7b' then
        match skipWs rest with
        | '\x7d' :: rest2 => some (JsonValue.obj [], rest2)
        | rest2 => (parseMembers fuel rest2).map (fun p => (JsonValue.obj p.1, p.2))
      else parseNumber (c :: rest)

/-- Comma-separated array elements up to the closing bracket. -/
def parseElems : Nat → List Char → Option (List JsonValue × List Char)
  | 0, _ => none
  | fuel + 1, cs =>
    match parseValue fuel cs with
    | none => none
    | some (v, rest) =>
      match skipWs rest with
      | ',' :: rest2 => (parseElems fuel rest2).map (fun p => (v :: p.1, p.2))
      | ']' :: rest2 => some ([v], rest2)
      | _ => none

/-- Comma-separated object members up to the closing brace. -/
def parseMembers : Nat → List Char → Option (List (String × JsonValue) × List Char)
  | 0, _ => none
  | fuel + 1, cs =>
    match skipWs cs with
    | '"' :: rest =>
      match parseStringChars (rest.length + 1) rest with
      | none => none
      | some (key, rest1) =>
        match skipWs rest1 with
        | ':' :: rest2 =>
          match parseValue fuel rest2 with
          | none => none
          | some (v, rest3) =>
            match skipWs rest3 with
            | ',' :: rest4 =>
              (parseMembers fuel rest4).map (fun p => ((String.mk key, v) :: p.1, p.2))
            | '\x7d' :: rest4 => some ([(String.mk key, v)], rest4)
            | _ => none
        | _ => none
    | _ => none

end

/-- Model of `JSON.parse`: `none` is a parse failure (a thrown
`SyntaxError`). -/
def jsonParse (s : String) : Option JsonValue :=
  match parseValue (2 * s.data.length + 2) s.data with
  | none => none
  | some (v, rest) => if (skipWs rest).isEmpty then some v else none

/-- Splits a character list on a separator, keeping empty groups (the
behaviour of `String.prototype.split`). -/
def splitOnChar (sep : Char) : List Char → List (List Char)
  | [] => [[]]
  | c :: cs =>
    let r := splitOnChar sep cs
    if c = sep then [] :: r
    else
      match r with
      | g :: gs => (c :: g) :: gs
      | [] => [[c]]

/-- Key and value of one `k=v` group (the value is everything after the first
`=`; a group without `=` has value `""`). -/
def splitAtFirstEq : List Char → (List Char × Option (List Char))
  | [] => ([], none)
  | c :: cs =>
    if c = '=' then ([], some cs)
    else
      let p := splitAtFirstEq cs
      (c :: p.1, p.2)

/-- Model of `querystring.parse` producing a JavaScript object of string
values.  Percent-decoding and the duplicate-key → array behaviour are not
modelled (no claim considered here exercises them). -/
def parseQueryStringJson (s : String) : JsonValue :=
  JsonValue.obj ((splitOnChar '&' s.data).map (fun g =>
    let p := splitAtFirstEq g
    (String.mk p.1, JsonValue.str (String.mk (p.2.getD [])))))

/-- ASCII uppercase of a string (model of `String.prototype.toUpperCase`). -/
def toUpperStr (s : String) : String :=
  String.mk (s.data.map Char.toUpper)

/-- ASCII lowercase of a string (model of `String.prototype.toLowerCase`). -/
def toLowerStr (s : String) : String :=
  String.mk (s.data.map Char.toLower)

/-- Modelled from the spec: the body decode of the node-http entry path
(`getBody` in src/adapters/node-http/input.ts, not present under src/), per
§4.4: JSON and URL-encoded form bodies are decoded, malformed JSON fails with
`PARSE_ERROR` ("Failed to parse request body"), and any other content type
passes through undecoded. -/
def decodeBody (s : String) (contentType : Option String) :
    Except TRPCError (Option JsonValue) :=
  if s = "" then Except.ok none
  else if contentType = some "application/json" then
    match jsonParse s with
    | some v => Except.ok (some v)
    | none => Except.error ⟨.PARSE_ERROR, "Failed to parse request body", none⟩
  else if contentType = some "application/x-www-form-urlencoded" then
    Except.ok (some (parseQueryStringJson s))
  else Except.ok (some (JsonValue.str s))

/-- Modelled from the spec: the body reader of the node-http entry path
(`getBody` in src/adapters/node-http/input.ts, not present under src/), per
§4.4: "A maximum body size must be enforced before decode; bodies exceeding
it fail the request". -/
def getBody (raw : Option String) (contentType : Option String)
    (maxBodySize : Option Nat) : Except TRPCError (Option JsonValue) :=
  match raw with
  | none => Except.ok none
  | some s =>
    match maxBodySize with
    | some m =>
      if m < s.length then
        Except.error ⟨.PAYLOAD_TOO_LARGE, "Request body too large", none⟩
      else decodeBody s contentType
    | none => decodeBody s contentType

/-- The fields of an API-gateway event that the Lambda adapter consults.  A
v1 event carries `httpMethod`/`path`; a v2 event carries
`requestContext.http.method` (here `requestContextMethod`) and `rawPath`. -/
structure APIGatewayEvent where
  version : Option String
  httpMethod : Option String
  path : Option String
  rawPath : Option String
  requestContextMethod : Option String
  headers : List (String × String)
  body : Option String
  queryStringParameters : Option (List (String × String))

/-- Payload format determination (src/adapters/aws-lambda.ts lines 16–26): an
absent `version` field implies "1.0", a present one is taken literally. -/
def determinePayloadFormat (event : APIGatewayEvent) : String :=
  match event.version with
  | none => "1.0"
  | some v => v

/-- JavaScript `a || b` on optional strings: an absent or empty string is
falsy. -/
def jsOrS : Option String → Option String → Option String
  | some s, b => if s = "" then b else some s
  | none, b => b

/-- The mock node request the Lambda adapter builds: its URL, its
upper-cased method, its query parameters, and its already-decoded body. -/
structure MockRequest where
  url : String
  method : String
  query : List (String × String)
  body : Option JsonValue

/-- Content-type lookup over the event headers, case-insensitive in the key
(src/adapters/aws-lambda.ts lines 34–37). -/
def findContentType (headers : List (String × String)) : Option String :=
  (headers.find? (fun p => toLowerStr p.1 == "content-type")).map Prod.snd

/-- Mock request construction (`createMockNodeHTTPRequest`,
src/adapters/aws-lambda.ts lines 28–68): a JSON body is parsed with
`JSON.parse` and a failure becomes `PARSE_ERROR` ("Failed to parse request
body"); a URL-encoded body is parsed with `querystring.parse`; any other
content type leaves the body undefined.  No body size is checked anywhere on
this path, and the Lambda handler options (src/types.ts lines 11–17) carry no
`maxBodySize` to check against. -/
def createMockNodeHTTPRequest (event : APIGatewayEvent) :
    Except TRPCError MockRequest :=
  let url := (jsOrS event.path (jsOrS event.rawPath (some "/"))).getD "/"
  let method :=
    toUpperStr ((jsOrS event.httpMethod (jsOrS event.requestContextMethod (some "GET"))).getD "GET")
  let ct := findContentType event.headers
  let decoded : Except TRPCError (Option JsonValue) :=
    if ct = some "application/json" then
      match event.body with
      | none => Except.ok none
      | some s =>
        if s = "" then Except.ok none
        else
          match jsonParse s with
          | some v => Except.ok (some v)
          | none => Except.error ⟨.PARSE_ERROR, "Failed to parse request body", none⟩
    else if ct = some "application/x-www-form-urlencoded" then
      match event.body with
      | none => Except.ok none
      | some s => if s = "" then Except.ok none else Except.ok (some (parseQueryStringJson s))
    else Except.ok none
  decoded.map (fun b => ⟨url, method, event.queryStringParameters.getD [], b⟩)

/-- Result returned to the gateway: a status code and a JSON body. -/
structure APIGatewayResult where
  statusCode : Nat
  body : Option JsonValue

/-- The catch branch of the Lambda handler (src/adapters/aws-lambda.ts lines
113–156): status from the `responseMeta` override or the fixed table, body
`{message, code}` with the message from the external `getErrorShape` (its
default carries the error's message; `none` falls back to `error.message`). -/
def lambdaErrorResponse (metaStatus : Option Nat) (errorShapeMessage : Option String)
    (e : TRPCError) : APIGatewayResult :=
  { statusCode := metaStatus.getD (TRPC_ERROR_CODE_HTTP_STATUS e.code)
    body := some (JsonValue.obj
      [("message", JsonValue.str (errorShapeMessage.getD e.message)),
       ("code", JsonValue.str (codeName e.code))]) }

/-- The Lambda gateway entry point (`createOpenApiAwsLambdaHandler`,
src/adapters/aws-lambda.ts lines 74–158): the payload format version is
checked first, the mock request is built (decoding the body), and the
node-http pipeline runs on it with its body already supplied; errors raised
before the pipeline are converted by the catch branch.  Note the options type
(src/types.ts lines 11–17) has no `maxBodySize` field, so none reaches the
pipeline. -/
def lambdaHandler (regs : List Registered)
    (invoke : String → Option JsonValue → Except TRPCError JsonValue)
    (metaStatus : Option Nat) (errorShapeMessage : Option String)
    (event : APIGatewayEvent) : APIGatewayResult :=
  let step : Except TRPCError APIGatewayResult := do
    let version := determinePayloadFormat event
    if version ≠ "1.0" ∧ version ≠ "2.0" then
      Except.error ⟨.INTERNAL_SERVER_ERROR,
        "Unsupported payload format version: " ++ version, none⟩
    else do
      let req ← createMockNodeHTTPRequest event
      match nodeHttpHandler regs invoke metaStatus errorShapeMessage false
          req.method (splitPath req.url) req.query (Except.ok req.body) with
      | some r => Except.ok ⟨r.statusCode, r.body⟩
      | none => Except.ok ⟨500, none⟩
  match step with
  | Except.ok r => r
  | Except.error e => lambdaErrorResponse metaStatus errorShapeMessage e

/-- Two overlapping GET routes, `/users/:id` registered before `/users/me`. -/
def demoOverlapRegs : List Registered :=
  [⟨"userById", ProcedureType.query, InputShape.objectLike,
     some ⟨none, OpenApiMethod.GET, "/users/:id"⟩⟩,
   ⟨"userMe", ProcedureType.query, InputShape.objectLike,
     some ⟨none, OpenApiMethod.GET, "/users/me"⟩⟩]

/-- A single array-input POST route `/echo`. -/
def demoArrayRegs : List Registered :=
  [⟨"echo", ProcedureType.query, InputShape.arrayLike,
     some ⟨none, OpenApiMethod.POST, "/echo"⟩⟩]

/-- A procedure that ignores its input and greets. -/
def demoInvoke : String → Option JsonValue → Except TRPCError JsonValue :=
  fun _ _ => Except.ok (JsonValue.obj [("greeting", JsonValue.str "ok")])

/-- A v1 gateway event POSTing a 7-character JSON array body to `/echo`. -/
def demoBigBodyEvent : APIGatewayEvent :=
  { version := none
    httpMethod := some "POST"
    path := some "/echo"
    rawPath := none
    requestContextMethod := none
    headers := [("content-type", "application/json")]
    body := some "[1,2,3]"
    queryStringParameters := none }

/-- A gateway event carrying an unsupported payload format version. -/
def demoBadVersionEvent : APIGatewayEvent :=
  { version := some "asdf"
    httpMethod := some "GET"
    path := some "/hello"
    rawPath := none
    requestContextMethod := none
    headers := []
    body := none
    queryStringParameters := none }

/-- A v1 gateway event POSTing a malformed JSON body to `/hello`. -/
def demoBadJsonEvent : APIGatewayEvent :=
  { version := none
    httpMethod := some "POST"
    path := some "/hello"
    rawPath := none
    requestContextMethod := none
    headers := [("Content-Type", "application/json")]
    body := some "asdfasd"
    queryStringParameters := none }

theorem jsLookup_append (a b : List (String × JsonValue)) (key : String) :
    jsLookup (a ++ b) key = (jsLookup b key).or (jsLookup a key) := by
  unfold jsLookup
  rw [List.reverse_append, List.find?_append]
  cases List.find? (fun p => p.1 == key) b.reverse <;> simp

theorem find?_of_first_sat {α : Type} (l : List α) (p : α → Bool) (i : Nat) (a : α)
    (hget : l.get? i = some a) (hp : p a = true)
    (hmin : ∀ j b, j < i → l.get? j = some b → p b = false) :
    l.find? p = some a := by
  induction l generalizing i with
  | nil => simp at hget
  | cons x xs ih =>
    cases i with
    | zero =>
      simp at hget
      subst hget
      exact List.find?_cons_of_pos _ hp
    | succ n =>
      have hx : p x = false := hmin 0 x (Nat.succ_pos n) rfl
      rw [List.find?_cons_of_neg _ (by simp [hx])]
      exact ih n (by simpa using hget)
        (fun j b hj hb => hmin (j + 1) b (Nat.succ_lt_succ hj) (by simpa using hb))

theorem registeredUnder_head_empty (regs : List Registered) :
    registeredUnder regs "HEAD" = [] := by
  induction regs with
  | nil => rfl
  | cons r rs ih =>
    unfold registeredUnder
    unfold registeredUnder at ih
    rw [List.filterMap_cons]
    match h : r.openapi with
    | none => simpa using ih
    | some o =>
      have hm : methodName o.method ≠ "HEAD" := by
        cases o.method <;> simp [methodName]
      simp [hm, ih]

/-- Claim C1: for a matched procedure whose declared input shape is an object
(not void and not array), the reconciled input is the shallow merge of the
decoded body-or-query fields with the path-parameter fields, and for every
key present in both, the path-parameter value wins; in particular query
`id = "q"` with path parameter `id = "p"` reconciles to `id = "p"`. -/
theorem claim_C1 :
    (∀ (bodyFields : List (String × JsonValue)) (pathInput : List (String × String)),
      reconcileInput InputShape.objectLike (some (JsonValue.obj bodyFields)) pathInput
        = Except.ok (some (JsonValue.obj (bodyFields ++ pathFields pathInput)))) ∧
    (∀ (bodyFields : List (String × JsonValue)) (pathInput : List (String × String))
      (k : String),
      jsLookup (bodyFields ++ pathFields pathInput) k
        = (jsLookup (pathFields pathInput) k).or (jsLookup bodyFields k)) ∧
    reconcileInput InputShape.objectLike
        (some (JsonValue.obj [("id", JsonValue.str "q")])) [("id", "p")]
      = Except.ok (some (JsonValue.obj
          [("id", JsonValue.str "q"), ("id", JsonValue.str "p")])) ∧
    jsLookup [("id", JsonValue.str "q"), ("id", JsonValue.str "p")] "id"
      = some (JsonValue.str "p") := by
  refine ⟨fun bf pi => rfl, fun bf pi k => jsLookup_append bf (pathFields pi) k, rfl, rfl⟩

/-- Claim C2: for a declared array input shape, a decoded body-or-query value
that is an array is passed through unchanged with no path parameters merged
in, and any non-array value fails with `BAD_REQUEST`
("Expected array in request body"). -/
theorem claim_C2 :
    (∀ (xs : List JsonValue) (pathInput : List (String × String)),
      reconcileInput InputShape.arrayLike (some (JsonValue.arr xs)) pathInput
        = Except.ok (some (JsonValue.arr xs))) ∧
    (∀ (v : Option JsonValue) (pathInput : List (String × String)),
      (∀ xs, v ≠ some (JsonValue.arr xs)) →
      reconcileInput InputShape.arrayLike v pathInput
        = Except.error ⟨TRPCErrorCode.BAD_REQUEST, "Expected array in request body", none⟩) := by
  constructor
  · intro xs pathInput
    rfl
  · intro v pathInput h
    match v with
    | none => rfl
    | some JsonValue.null => rfl
    | some (JsonValue.bool b) => rfl
    | some (JsonValue.num n) => rfl
    | some (JsonValue.str s) => rfl
    | some (JsonValue.arr xs) => exact absurd rfl (h xs)
    | some (JsonValue.obj fields) => rfl

/-- Witness for C2: the array body `["Steve", "Mary"]` is passed through
unchanged, while the object body with field `a = 1` fails with
`BAD_REQUEST` ("Expected array in request body"). -/
theorem claim_C2_witness :
    reconcileInput InputShape.arrayLike
        (some (JsonValue.arr [JsonValue.str "Steve", JsonValue.str "Mary"])) []
      = Except.ok (some (JsonValue.arr [JsonValue.str "Steve", JsonValue.str "Mary"])) ∧
    reconcileInput InputShape.arrayLike
        (some (JsonValue.obj [("a", JsonValue.num 1)])) []
      = Except.error ⟨TRPCErrorCode.BAD_REQUEST, "Expected array in request body", none⟩ :=
  ⟨claim_C2.1 _ _, claim_C2.2 _ _ (fun xs h => by simp at h)⟩

/-- Claim C5: a `BAD_REQUEST` failure whose cause is a schema-validator error
is surfaced with status 400, message "Input validation failed", code
`BAD_REQUEST`, and the validator's issue list; a `BAD_REQUEST` failure with a
non-validator cause uses the raw error message and carries no issues list
(shown both for a default error shape carrying the error's message and for an
absent error shape). -/
theorem claim_C5 :
    (∀ (msg : String) (issues : List JsonValue) (sm : Option String),
      errorResponse none sm ⟨TRPCErrorCode.BAD_REQUEST, msg, some issues⟩
        = ⟨400, some (JsonValue.obj
            [("message", JsonValue.str "Input validation failed"),
             ("code", JsonValue.str "BAD_REQUEST"),
             ("issues", JsonValue.arr issues)])⟩) ∧
    (∀ (msg : String),
      errorResponse none (some msg) ⟨TRPCErrorCode.BAD_REQUEST, msg, none⟩
        = ⟨400, some (JsonValue.obj
            [("message", JsonValue.str msg),
             ("code", JsonValue.str "BAD_REQUEST")])⟩) ∧
    (∀ (msg : String),
      errorResponse none none ⟨TRPCErrorCode.BAD_REQUEST, msg, none⟩
        = ⟨400, some (JsonValue.obj
            [("message", JsonValue.str msg),
             ("code", JsonValue.str "BAD_REQUEST")])⟩) := by
  refine ⟨fun msg issues sm => ?_, fun msg => rfl, fun msg => rfl⟩
  simp [errorResponse, isInputValidationError, TRPC_ERROR_CODE_HTTP_STATUS, codeName]

/-- Claim C6: the HTTP status of a failure envelope is given by the fixed
error-code → status table, and a `responseMeta`-provided status override
takes precedence when present. -/
theorem claim_C6 :
    TRPC_ERROR_CODE_HTTP_STATUS .PARSE_ERROR = 400 ∧
    TRPC_ERROR_CODE_HTTP_STATUS .BAD_REQUEST = 400 ∧
    TRPC_ERROR_CODE_HTTP_STATUS .UNAUTHORIZED = 401 ∧
    TRPC_ERROR_CODE_HTTP_STATUS .FORBIDDEN = 403 ∧
    TRPC_ERROR_CODE_HTTP_STATUS .NOT_FOUND = 404 ∧
    TRPC_ERROR_CODE_HTTP_STATUS .METHOD_NOT_SUPPORTED = 405 ∧
    TRPC_ERROR_CODE_HTTP_STATUS .TIMEOUT = 408 ∧
    TRPC_ERROR_CODE_HTTP_STATUS .CONFLICT = 409 ∧
    TRPC_ERROR_CODE_HTTP_STATUS .PRECONDITION_FAILED = 412 ∧
    TRPC_ERROR_CODE_HTTP_STATUS .PAYLOAD_TOO_LARGE = 413 ∧
    TRPC_ERROR_CODE_HTTP_STATUS .UNSUPPORTED_MEDIA_TYPE = 415 ∧
    TRPC_ERROR_CODE_HTTP_STATUS .UNPROCESSABLE_CONTENT = 422 ∧
    TRPC_ERROR_CODE_HTTP_STATUS .TOO_MANY_REQUESTS = 429 ∧
    TRPC_ERROR_CODE_HTTP_STATUS .CLIENT_CLOSED_REQUEST = 499 ∧
    TRPC_ERROR_CODE_HTTP_STATUS .INTERNAL_SERVER_ERROR = 500 ∧
    TRPC_ERROR_CODE_HTTP_STATUS .NOT_IMPLEMENTED = 501 ∧
    TRPC_ERROR_CODE_HTTP_STATUS .BAD_GATEWAY = 502 ∧
    TRPC_ERROR_CODE_HTTP_STATUS .SERVICE_UNAVAILABLE = 503 ∧
    TRPC_ERROR_CODE_HTTP_STATUS .GATEWAY_TIMEOUT = 504 ∧
    (∀ (s : Nat) (sm : Option String) (e : TRPCError),
      (errorResponse (some s) sm e).statusCode = s) ∧
    (∀ (sm : Option String) (e : TRPCError),
      (errorResponse none sm e).statusCode = TRPC_ERROR_CODE_HTTP_STATUS e.code) := by
  refine ⟨rfl, rfl, rfl, rfl, rfl, rfl, rfl, rfl, rfl, rfl, rfl, rfl, rfl, rfl, rfl,
    rfl, rfl, rfl, rfl, fun s sm e => rfl, fun sm e => rfl⟩

/-- Claim C3: procedure lookup scans only the patterns registered under the
request's method, in registration order, and returns the first pattern (by
registration index) matching the path together with its descriptor and
captures; when two registered patterns both match the same path, the
earlier-registered one is selected regardless of specificity. -/
theorem claim_C3 (regs : List Registered) (m : String) (segs : List String)
    (i : Nat) (e : List Segment × CacheEntry) (ps : List (String × String))
    (hget : (registeredUnder regs m).get? i = some e)
    (hmatch : matchPattern e.1 segs = some ps)
    (hmin : ∀ j e2, j < i → (registeredUnder regs m).get? j = some e2 →
      matchPattern e2.1 segs = none) :
    getProcedure regs m segs = some (e.2, ps) := by
  unfold getProcedure
  rw [find?_of_first_sat (registeredUnder regs m) _ i e hget (by simp [hmatch])
    (fun j b hj hb => by simp [hmin j b hj hb])]
  simp [hmatch]

/-- Witness for C3: with `/users/:id` registered before `/users/me`, the path
`users/me` resolves to the earlier `/users/:id` route, capturing
`id = "me"`, even though `/users/me` is more specific. -/
theorem claim_C3_witness :
    getProcedure demoOverlapRegs "GET" ["users", "me"]
      = some (⟨ProcedureType.query, "userById", InputShape.objectLike⟩, [("id", "me")]) :=
  claim_C3 demoOverlapRegs "GET" ["users", "me"] 0
    (compileTemplate "/users/:id", ⟨ProcedureType.query, "userById", InputShape.objectLike⟩)
    [("id", "me")] rfl rfl (fun j _ hj _ => absurd hj (Nat.not_lt_zero j))

/-- Claim C8: a request matching no registered pattern, dispatched with no
next-middleware callback, is answered 204 with an empty body when the method
is HEAD (a non-error no-op) and NOT_FOUND (status 404) for any other
method. -/
theorem claim_C8 (regs : List Registered)
    (invoke : String → Option JsonValue → Except TRPCError JsonValue)
    (sm : Option String) (method : String) (segs : List String)
    (query : List (String × String)) (readBody : Except TRPCError (Option JsonValue))
    (hmiss : getProcedure regs method segs = none) :
    (method = "HEAD" →
      nodeHttpHandler regs invoke none sm false method segs query readBody
        = some ⟨204, none⟩) ∧
    (method ≠ "HEAD" →
      nodeHttpHandler regs invoke none sm false method segs query readBody
        = some ⟨404, some (JsonValue.obj
            [("message", JsonValue.str (sm.getD "Not found")),
             ("code", JsonValue.str "NOT_FOUND")])⟩) := by
  constructor
  · intro hhead
    unfold nodeHttpHandler
    rw [hmiss]
    simp [hhead]
  · intro hother
    unfold nodeHttpHandler
    rw [hmiss]
    simp [hother, errorResponse, isInputValidationError, TRPC_ERROR_CODE_HTTP_STATUS, codeName]

/-- Witness for C8: with no registrations at all, a HEAD request yields 204
with an empty body and a GET request yields the 404 NOT_FOUND envelope. -/
theorem claim_C8_witness :
    nodeHttpHandler [] demoInvoke none none false "HEAD" ["hello"] [] (Except.ok none)
      = some ⟨204, none⟩ ∧
    nodeHttpHandler [] demoInvoke none none false "GET" ["hello"] [] (Except.ok none)
      = some ⟨404, some (JsonValue.obj
          [("message", JsonValue.str "Not found"),
           ("code", JsonValue.str "NOT_FOUND")])⟩ :=
  ⟨(claim_C8 [] demoInvoke none "HEAD" ["hello"] [] (Except.ok none) rfl).1 rfl,
   (claim_C8 [] demoInvoke none "GET" ["hello"] [] (Except.ok none) rfl).2 (by simp)⟩

/-- Claim C10: a HEAD request dispatched without a next-middleware callback is
always answered 204 with an empty body and never reaches any procedure: the
registrable methods (src/types.ts line 19) do not include HEAD, so the
lookup under HEAD finds nothing for any router and any path — even a path
carrying a GET route. -/
theorem claim_C10 :
    ∀ (regs : List Registered)
      (invoke : String → Option JsonValue → Except TRPCError JsonValue)
      (ms : Option Nat) (sm : Option String) (segs : List String)
      (query : List (String × String)) (readBody : Except TRPCError (Option JsonValue)),
      getProcedure regs "HEAD" segs = none ∧
      nodeHttpHandler regs invoke ms sm false "HEAD" segs query readBody
        = some ⟨204, none⟩ := by
  intro regs invoke ms sm segs query readBody
  have hmiss : getProcedure regs "HEAD" segs = none := by
    unfold getProcedure
    rw [registeredUnder_head_empty]
    rfl
  refine ⟨hmiss, ?_⟩
  unfold nodeHttpHandler
  rw [hmiss]
  simp

/-- Claim C4: a gateway event with no `version` field is treated as format
"1.0"; an event whose `version` is neither "1.0" nor "2.0" fails before any
route matching is attempted (the result does not depend on the router or the
procedures at all), returning status 500 with body
`message = "Unsupported payload format version: <value>"`,
`code = "INTERNAL_SERVER_ERROR"` — never NOT_FOUND. -/
theorem claim_C4 (regs : List Registered)
    (invoke : String → Option JsonValue → Except TRPCError JsonValue)
    (event : APIGatewayEvent) (v : String)
    (hv : event.version = some v) (h1 : v ≠ "1.0") (h2 : v ≠ "2.0") :
    lambdaHandler regs invoke none none event
      = ⟨500, some (JsonValue.obj
          [("message", JsonValue.str ("Unsupported payload format version: " ++ v)),
           ("code", JsonValue.str "INTERNAL_SERVER_ERROR")])⟩ ∧
    (∀ (e2 : APIGatewayEvent), e2.version = none → determinePayloadFormat e2 = "1.0") := by
  refine ⟨?_, fun e2 h => by simp [determinePayloadFormat, h]⟩
  have hd : determinePayloadFormat event = v := by
    simp [determinePayloadFormat, hv]
  simp [lambdaHandler, hd, h1, h2, lambdaErrorResponse, TRPC_ERROR_CODE_HTTP_STATUS, codeName]

/-- Witness for C4: the event with `version = "asdf"` fails with the 500
envelope regardless of the (empty) router, and dropping the version field
from it yields implied format "1.0". -/
theorem claim_C4_witness :
    lambdaHandler [] demoInvoke none none demoBadVersionEvent
      = ⟨500, some (JsonValue.obj
          [("message", JsonValue.str ("Unsupported payload format version: " ++ "asdf")),
           ("code", JsonValue.str "INTERNAL_SERVER_ERROR")])⟩ ∧
    determinePayloadFormat demoBadJsonEvent = "1.0" :=
  ⟨(claim_C4 [] demoInvoke demoBadVersionEvent "asdf" rfl (by decide) (by decide)).1,
   (claim_C4 [] demoInvoke demoBadVersionEvent "asdf" rfl (by decide) (by decide)).2
     demoBadJsonEvent rfl⟩

theorem createMock_parse_failure (event : APIGatewayEvent) (s : String)
    (hct : findContentType event.headers = some "application/json")
    (hbody : event.body = some s) (hne : s ≠ "") (hbad : jsonParse s = none) :
    createMockNodeHTTPRequest event
      = Except.error ⟨TRPCErrorCode.PARSE_ERROR, "Failed to parse request body", none⟩ := by
  simp [createMockNodeHTTPRequest, hct, hbody, hne, hbad, Except.map]

/-- Claim C7: a request carrying content-type `application/json` whose body is
not valid JSON fails with `PARSE_ERROR`, surfaced as status 400 with body
`{message: "Failed to parse request body", code: "PARSE_ERROR"}`; no
procedure is invoked (the result does not depend on the router or the
procedures). -/
theorem claim_C7 (regs : List Registered)
    (invoke : String → Option JsonValue → Except TRPCError JsonValue)
    (event : APIGatewayEvent) (s : String)
    (hgood : determinePayloadFormat event = "1.0" ∨ determinePayloadFormat event = "2.0")
    (hct : findContentType event.headers = some "application/json")
    (hbody : event.body = some s) (hne : s ≠ "") (hbad : jsonParse s = none) :
    lambdaHandler regs invoke none none event
      = ⟨400, some (JsonValue.obj
          [("message", JsonValue.str "Failed to parse request body"),
           ("code", JsonValue.str "PARSE_ERROR")])⟩ := by
  have hmock := createMock_parse_failure event s hct hbody hne hbad
  have hcond : ¬(determinePayloadFormat event ≠ "1.0" ∧ determinePayloadFormat event ≠ "2.0") := by
    rcases hgood with h | h <;> simp [h]
  simp [lambdaHandler, hcond, hmock, Bind.bind, Except.bind, lambdaErrorResponse,
    TRPC_ERROR_CODE_HTTP_STATUS, codeName]

/-- Witness for C7: the v1 event POSTing the body `asdfasd` (content-type
given as `Content-Type: application/json`) yields the 400 `PARSE_ERROR`
envelope, with an empty router. -/
theorem claim_C7_witness :
    lambdaHandler [] demoInvoke none none demoBadJsonEvent
      = ⟨400, some (JsonValue.obj
          [("message", JsonValue.str "Failed to parse request body"),
           ("code", JsonValue.str "PARSE_ERROR")])⟩ :=
  claim_C7 [] demoInvoke demoBadJsonEvent "asdfasd" (Or.inl rfl) rfl rfl (by decide) rfl

/-- Claim C9 (amended): the body-size limit is enforced before decode only on
the node-http entry path — `getBody` rejects a raw body longer than the
configured `maxBodySize` with `PAYLOAD_TOO_LARGE` before any decoding.  On
the AWS Lambda gateway entry point no limit exists: the handler options
(src/types.ts lines 11–17) carry no `maxBodySize`, and the mock-request
construction decodes a JSON body of any length with no size check. -/
theorem claim_C9_amended :
    (∀ (s : String) (ct : Option String) (m : Nat), m < s.length →
      getBody (some s) ct (some m)
        = Except.error ⟨TRPCErrorCode.PAYLOAD_TOO_LARGE, "Request body too large", none⟩) ∧
    (∀ (event : APIGatewayEvent) (s : String) (v : JsonValue),
      findContentType event.headers = some "application/json" →
      event.body = some s → s ≠ "" → jsonParse s = some v →
      createMockNodeHTTPRequest event = Except.ok
        ⟨(jsOrS event.path (jsOrS event.rawPath (some "/"))).getD "/",
         toUpperStr ((jsOrS event.httpMethod
           (jsOrS event.requestContextMethod (some "GET"))).getD "GET"),
         event.queryStringParameters.getD [], some v⟩) := by
  constructor
  · intro s ct m hm
    simp [getBody, hm]
  · intro event s v hct hbody hne hv
    simp [createMockNodeHTTPRequest, hct, hbody, hne, hv, Except.map]

/-- Witness for C9 (amended): a four-character body against `maxBodySize = 3`
is rejected by the node-http body reader, while the Lambda mock-request
construction decodes the seven-character JSON body `[1,2,3]` successfully. -/
theorem claim_C9_witness :
    getBody (some "abcd") (some "application/json") (some 3)
      = Except.error ⟨TRPCErrorCode.PAYLOAD_TOO_LARGE, "Request body too large", none⟩ ∧
    createMockNodeHTTPRequest demoBigBodyEvent = Except.ok
      ⟨"/echo", "POST", [],
       some (JsonValue.arr [JsonValue.num 1, JsonValue.num 2, JsonValue.num 3])⟩ :=
  ⟨claim_C9_amended.1 "abcd" (some "application/json") 3 (by decide),
   claim_C9_amended.2 demoBigBodyEvent "[1,2,3]"
     (JsonValue.arr [JsonValue.num 1, JsonValue.num 2, JsonValue.num 3])
     rfl rfl (by decide) rfl⟩

/-- Counterexample for C9 as stated: the claim demands that a body exceeding
the configured maximum size fail on EVERY entry path, including the AWS
Lambda gateway entry point.  The seven-character body `[1,2,3]` exceeds a
configured maximum of 1 — the node-http body reader duly rejects it — yet
the same body sent through the Lambda entry point (which accepts no
`maxBodySize` at all) is decoded and dispatched normally, completing with
status 200 instead of failing. -/
theorem claim_C9_counterexample :
    1 < ("[1,2,3]" : String).length ∧
    getBody (some "[1,2,3]") (some "application/json") (some 1)
      = Except.error ⟨TRPCErrorCode.PAYLOAD_TOO_LARGE, "Request body too large", none⟩ ∧
    lambdaHandler demoArrayRegs demoInvoke none none demoBigBodyEvent
      = ⟨200, some (JsonValue.obj [("greeting", JsonValue.str "ok")])⟩ := by
  refine ⟨by decide, rfl, ?_⟩
  rfl
